import Mathlib

/-!
Shallow embedding of `classification/api/api_apply_classifier_single_node.py`.

Conventions:
* Python floats are modelled as rationals (`ℚ`); the arithmetic in the
  source (box conversion, padding, clamping) is plain field arithmetic.
* `np.maximum(0, crop_boxes).astype(int)` truncates toward zero; after the
  clamp every entry is nonnegative, so truncation coincides with `Int.floor`.
* A detection's `classifications` field is `Option (List (String × ℚ))`:
  `none` models an absent key, `some []` a present-but-empty list.
* The external classifier session (`sess.run` on the cropped pixels) is an
  opaque function from the image path and the integer crop rectangle to
  either a score vector or an exception (`none`).
* The external image loader (`PIL.Image.open ... .shape`) is an opaque
  function from a path to `Option (height × width)`; `none` models any
  exception caught by the `try`/`except` around image reading.
-/

namespace ApplyClassifier

/-- One detection record of the detection-API json: `category` (string id),
`conf`, `bbox = (x_min, y_min, width, height)` normalized, and the optional
`classifications` list. -/
structure Detection where
  category : String
  conf : ℚ
  bbox : ℚ × ℚ × ℚ × ℚ
  classifications : Option (List (String × ℚ))
  deriving Repr, DecidableEq

/-- One entry of the json's `images` array: a file path and its detections. -/
structure ImageRecord where
  file : String
  detections : List Detection
  deriving Repr, DecidableEq

/-- The root json object: optional `classification_categories` vocabulary
(index string → class name) and the `images` array. -/
structure DetectionResult where
  classification_categories : Option (List (String × String))
  images : List ImageRecord
  deriving Repr, DecidableEq

/-- `add_classification_categories`: if the field is absent, read the class
names (one per line, empty lines dropped via `strip()`), and add them with
0-based string indices; if the field is already present, the object is
returned unchanged (only a warning is printed). -/
def add_classification_categories (json_object : DetectionResult)
    (classes_file : List String) : DetectionResult :=
  match json_object.classification_categories with
  | some _ => json_object
  | none =>
    let class_names := (classes_file.filter (fun cn => cn.trim ≠ ""))
    { json_object with
      classification_categories :=
        some (class_names.enum.map (fun p => (toString p.1, p.2))) }

/-! Geometry: the crop-box computation inside `classify_boxes`.
`box_coords = [[y, x, y+h, x+w]]`, scaled by `[H, W, H, W]`. -/

/-- `box_coords_abs`: the box converted to `(y_min, x_min, y_max, x_max)` in
absolute pixel coordinates. -/
def boxAbs (bbox : ℚ × ℚ × ℚ × ℚ) (image_height image_width : ℚ) :
    ℚ × ℚ × ℚ × ℚ :=
  (bbox.2.1 * image_height, bbox.1 * image_width,
   (bbox.2.1 + bbox.2.2.2) * image_height,
   (bbox.1 + bbox.2.2.1) * image_width)

/-- Pixel-space box height (`box_coords_abs[:,2] - box_coords_abs[:,0]`). -/
def boxHeight (bbox : ℚ × ℚ × ℚ × ℚ) (image_height image_width : ℚ) : ℚ :=
  (boxAbs bbox image_height image_width).2.2.1 -
    (boxAbs bbox image_height image_width).1

/-- Pixel-space box width (`box_coords_abs[:,3] - box_coords_abs[:,1]`). -/
def boxWidth (bbox : ℚ × ℚ × ℚ × ℚ) (image_height image_width : ℚ) : ℚ :=
  (boxAbs bbox image_height image_width).2.2.2 -
    (boxAbs bbox image_height image_width).2.1

/-- `padding_factor * np.max(bbox_sizes)`: the padded square's side. -/
def targetSide (bbox : ℚ × ℚ × ℚ × ℚ) (image_height image_width
    padding_factor : ℚ) : ℚ :=
  padding_factor * max (boxHeight bbox image_height image_width)
    (boxWidth bbox image_height image_width)

/-- The real-valued padded crop, before clamping and truncation:
`box_coords_abs + [-offsets, offsets]` with
`offsets = (padding_factor * max(sizes) - sizes) / 2` per axis. -/
def computeCropReal (bbox : ℚ × ℚ × ℚ × ℚ) (image_height image_width
    padding_factor : ℚ) : ℚ × ℚ × ℚ × ℚ :=
  let b := boxAbs bbox image_height image_width
  let offset_y := (targetSide bbox image_height image_width padding_factor -
    boxHeight bbox image_height image_width) / 2
  let offset_x := (targetSide bbox image_height image_width padding_factor -
    boxWidth bbox image_height image_width) / 2
  (b.1 - offset_y, b.2.1 - offset_x, b.2.2.1 + offset_y, b.2.2.2 + offset_x)

/-- `np.maximum(0, crop_boxes).astype(int)`: clamp below at 0, then truncate
to integers (truncation = floor on the now-nonnegative entries). -/
def cropBox (bbox : ℚ × ℚ × ℚ × ℚ) (image_height image_width
    padding_factor : ℚ) : ℤ × ℤ × ℤ × ℤ :=
  let c := computeCropReal bbox image_height image_width padding_factor
  ((max 0 c.1).floor, (max 0 c.2.1).floor,
   (max 0 c.2.2.1).floor, (max 0 c.2.2.2).floor)

/-- `Rat.floor` agrees with the floor of the `FloorRing` structure on `ℚ`. -/
theorem ratFloor_eq_floor (q : ℚ) : q.floor = ⌊q⌋ := by
  rw [Rat.floor_def', Rat.floor_def]

/-! Ranking: `np.argsort(-predictions)[:num_annotated_classes]`.
`np.argsort(-predictions)` sorts the class indices by descending score.
The relative order of equal scores is library-internal; it is modelled from
the spec: ties are broken by ascending class index (stable selection). -/

/-- Insert an `(index, score)` pair into a list ranked by descending score,
ties by ascending index. -/
def insertRanked (p : ℕ × ℚ) : List (ℕ × ℚ) → List (ℕ × ℚ)
  | [] => [p]
  | q :: rest =>
    if q.2 < p.2 ∨ (p.2 = q.2 ∧ p.1 < q.1) then p :: q :: rest
    else q :: insertRanked p rest

/-- Sort `(index, score)` pairs by descending score, ties by ascending
index (insertion sort). -/
def rankDesc : List (ℕ × ℚ) → List (ℕ × ℚ)
  | [] => []
  | p :: rest => insertRanked p (rankDesc rest)

/-- `np.argsort(-predictions)`: the class indices `0, …, n-1` ordered by
descending score (ties by ascending index; modelled from the spec). -/
def argsortDesc (predictions : List ℚ) : List ℕ :=
  (rankDesc ((List.range predictions.length).map
    (fun i => (i, predictions.getD i 0)))).map Prod.fst

/-- The merged classification entries: for each of the first
`num_annotated_classes` indices of `np.argsort(-predictions)`, the pair
`['%i' % class_idx, predictions[class_idx]]`. -/
def topClasses (predictions : List ℚ) (num_annotated_classes : ℕ) :
    List (String × ℚ) :=
  ((argsortDesc predictions).take num_annotated_classes).map
    (fun class_idx => (toString class_idx, predictions.getD class_idx 0))

/-! The per-detection gate (the three `continue` conditions). -/

/-- The negation of the third skip condition:
`'classifications' in cur_detection.keys() and len(...) > 0`. -/
def notYetClassified (d : Detection) : Bool :=
  match d.classifications with
  | none => true
  | some l => decide (l.length = 0)

/-- A detection is classified iff none of the three `continue` branches
fires: `conf < confidence_threshold`, category not in the whitelist,
already classified. -/
def shouldClassify (confidence_threshold : ℚ)
    (detection_category_whitelist : List String) (d : Detection) : Bool :=
  decide (confidence_threshold ≤ d.conf) &&
    detection_category_whitelist.contains d.category &&
    notYetClassified d

/-! The orchestration inside `classify_boxes`. The external collaborators
are opaque functions: the classifier session and the image loader. -/

/-- The classifier session: given the image path and the integer crop
rectangle, either the model's score vector (`sess.run`) or `none` for an
exception raised by the invocation (not caught inside `classify_boxes`). -/
def Classifier : Type := String → ℤ × ℤ × ℤ × ℤ → Option (List ℚ)

/-- The image loader: given a path, the decoded image's
`(height, width)`, or `none` when loading raises (caught by the
`try`/`except` around image reading). -/
def Loader : Type := String → Option (ℕ × ℕ)

/-- `os.path.join(image_dir, image_path)` when `image_dir` is non-empty
(the `if image_dir:` branch), else the path unchanged. -/
def joinPath (image_dir file : String) : String :=
  if image_dir = "" then file else image_dir ++ "/" ++ file

/-- The body of the detection loop for one detection: skip (unchanged) when
the gate fails, otherwise crop, run the classifier, and set
`classifications` to the top-scoring classes; a classifier exception
(`none`) escapes uncaught as `.error`. -/
def processDetection (model : Classifier) (confidence_threshold : ℚ)
    (whitelist : List String) (padding_factor : ℚ)
    (num_annotated_classes : ℕ) (image_height image_width : ℚ)
    (file : String) (d : Detection) : Except Unit Detection :=
  if shouldClassify confidence_threshold whitelist d then
    match model file (cropBox d.bbox image_height image_width
        padding_factor) with
    | none => .error ()
    | some predictions =>
      .ok { d with
            classifications := some (topClasses predictions num_annotated_classes) }
  else .ok d

/-- The detection loop: processes detections in order; an uncaught
classifier exception aborts the loop, leaving the failing detection and
all later ones unchanged (`true` flags the abort). -/
def processDetections (model : Classifier) (confidence_threshold : ℚ)
    (whitelist : List String) (padding_factor : ℚ)
    (num_annotated_classes : ℕ) (image_height image_width : ℚ)
    (file : String) : List Detection → List Detection × Bool
  | [] => ([], false)
  | d :: rest =>
    match processDetection model confidence_threshold whitelist
        padding_factor num_annotated_classes image_height image_width
        file d with
    | .error _ => (d :: rest, true)
    | .ok d' =>
      let r := processDetections model confidence_threshold whitelist
        padding_factor num_annotated_classes image_height image_width
        file rest
      (d' :: r.1, r.2)

/-- The body of the image loop for one image: a load failure (`continue`)
leaves the image unchanged without aborting; otherwise every detection is
processed with the image's height and width. -/
def processImage (loader : Loader) (model : Classifier)
    (confidence_threshold : ℚ) (whitelist : List String)
    (padding_factor : ℚ) (num_annotated_classes : ℕ) (image_dir : String)
    (img : ImageRecord) : ImageRecord × Bool :=
  match loader (joinPath image_dir img.file) with
  | none => (img, false)
  | some (h, w) =>
    let r := processDetections model confidence_threshold whitelist
      padding_factor num_annotated_classes (h : ℚ) (w : ℚ)
      (joinPath image_dir img.file) img.detections
    ({ img with detections := r.1 }, r.2)

/-- The image loop: processes images in order; an uncaught classifier
exception aborts the whole loop, leaving all later images unchanged. -/
def classifyImages (loader : Loader) (model : Classifier)
    (confidence_threshold : ℚ) (whitelist : List String)
    (padding_factor : ℚ) (num_annotated_classes : ℕ) (image_dir : String) :
    List ImageRecord → List ImageRecord × Bool
  | [] => ([], false)
  | img :: rest =>
    let r := processImage loader model confidence_threshold whitelist
      padding_factor num_annotated_classes image_dir img
    if r.2 then (r.1 :: rest, true)
    else
      let rr := classifyImages loader model confidence_threshold whitelist
        padding_factor num_annotated_classes image_dir rest
      (r.1 :: rr.1, rr.2)

/-- `classify_boxes`: asserts that `classification_categories` is present
(`none` models the assertion failure), then runs the image loop; the flag
records whether an uncaught classifier exception aborted the run. -/
def classify_boxes (loader : Loader) (model : Classifier)
    (json_with_classes : DetectionResult) (image_dir : String)
    (confidence_threshold : ℚ) (detection_category_whitelist : List String)
    (padding_factor : ℚ) (num_annotated_classes : ℕ) :
    Option (DetectionResult × Bool) :=
  match json_with_classes.classification_categories with
  | none => none
  | some _ =>
    let r := classifyImages loader model confidence_threshold
      detection_category_whitelist padding_factor num_annotated_classes
      image_dir json_with_classes.images
    some ({ json_with_classes with images := r.1 }, r.2)

/-! Theorems. -/

/-- C1: the claim as stated is false: crop coordinates are clamped only at
the lower bound 0 (`np.maximum(0, crop_boxes)`); no upper clamp to
`image_height`/`image_width` is applied. For a 100×100 image and the
full-image box `(x, y, w, h) = (0, 0, 1, 1)` with `padding_factor = 1.6`,
the computed crop is `(0, 0, 130, 130)`, whose upper coordinates exceed
the image bounds. -/
theorem C1_counterexample :
    cropBox (0, 0, 1, 1) 100 100 (8/5) = (0, 0, 130, 130) ∧
      ¬ ((cropBox (0, 0, 1, 1) 100 100 (8/5)).2.2.1 ≤ (100 : ℤ)) := by
  have h : cropBox (0, 0, 1, 1) 100 100 (8/5) = (0, 0, 130, 130) := by
    norm_num [cropBox, computeCropReal, boxAbs, boxHeight, boxWidth,
      targetSide, max_def, ratFloor_eq_floor]
  exact ⟨h, by rw [h]; decide⟩

/-- C1 (amended): all four coordinates of the computed pixel-space crop
rectangle are clamped to be `≥ 0`; no upper clamp to `image_height` /
`image_width` is applied, so the upper coordinates may exceed the image
bounds (downstream array slicing clips them). -/
theorem C1_theorem (bbox : ℚ × ℚ × ℚ × ℚ) (H W p : ℚ) :
    0 ≤ (cropBox bbox H W p).1 ∧ 0 ≤ (cropBox bbox H W p).2.1 ∧
      0 ≤ (cropBox bbox H W p).2.2.1 ∧ 0 ≤ (cropBox bbox H W p).2.2.2 := by
  simp only [cropBox]
  refine ⟨?_, ?_, ?_, ?_⟩ <;>
    · rw [ratFloor_eq_floor]
      exact Int.le_floor.mpr (by exact_mod_cast le_max_left 0 _)

/-- The detection of the concrete scenario of the spec (§8.7). -/
def demoDetection : Detection :=
  { category := "1", conf := 9/10, bbox := (1/4, 1/5, 1/4, 3/10),
    classifications := none }

/-- A classifier returning the scores `[0.1, 0.7, 0.2]` of the concrete
scenario of the spec (§8.7). -/
def demoClassifier : Classifier := fun _ _ => some [1/10, 7/10, 1/5]

/-- C5: the concrete scenario: a 400×300-pixel image, normalized bbox
`(x, y, w, h) = (0.25, 0.2, 0.25, 0.3)`, category "1", confidence 0.9,
threshold 0.85, whitelist `{"1"}`, padding factor 1.6: the detection is
selected, the crop rectangle is `y:[25,185], x:[70,230]`, and with
classifier scores `[0.1, 0.7, 0.2]` and `num_annotated_classes = 2` the
detection's classifications become `[["1", 0.7], ["2", 0.2]]`. -/
theorem C5_theorem :
    shouldClassify (85/100) ["1"] demoDetection = true ∧
    cropBox demoDetection.bbox 300 400 (8/5) = (25, 70, 185, 230) ∧
    processDetection demoClassifier (85/100) ["1"] (8/5) 2 300 400
        "img.jpg" demoDetection =
      .ok { demoDetection with
            classifications := some [("1", 7/10), ("2", 1/5)] } := by
  have hgate : shouldClassify (85/100) ["1"] demoDetection = true := by
    norm_num [shouldClassify, notYetClassified, demoDetection]
  have htop : topClasses [1/10, 7/10, 1/5] 2 = [("1", 7/10), ("2", 1/5)] := by
    norm_num [topClasses, argsortDesc, rankDesc, insertRanked]
    exact ⟨rfl, rfl⟩
  refine ⟨hgate, ?_, ?_⟩
  · norm_num [cropBox, computeCropReal, boxAbs, boxHeight, boxWidth,
      targetSide, max_def, ratFloor_eq_floor, demoDetection]
  · simp only [processDetection, hgate, if_true, demoClassifier, htop]

/-- C7: the claim as stated is false: `target_side` is
`padding_factor * max(height, width)`, so a box with pixel height 0 but
positive width does not give `target_side = 0` and the crop does not
degenerate: for a 100×100 image, bbox `(x, y, w, h) = (0, 0, 0.5, 0)` and
padding factor 1.6, the box's pixel height is 0 yet `target_side = 80` and
the crop `(0, 0, 40, 65)` has positive extent on both axes. -/
theorem C7_counterexample :
    boxHeight (0, 0, 1/2, 0) 100 100 = 0 ∧
    targetSide (0, 0, 1/2, 0) 100 100 (8/5) = 80 ∧
    cropBox (0, 0, 1/2, 0) 100 100 (8/5) = (0, 0, 40, 65) := by
  refine ⟨?_, ?_, ?_⟩
  · norm_num [boxHeight, boxAbs]
  · norm_num [targetSide, boxHeight, boxWidth, boxAbs, max_def]
  · norm_num [cropBox, computeCropReal, boxAbs, boxHeight, boxWidth,
      targetSide, max_def, ratFloor_eq_floor]

/-- C7 (amended): if the box's pixel-space height AND width are both 0,
then `target_side = 0` and the crop degenerates to the original zero-area
box (its corner clamped at 0 and floored, no expansion on either axis). -/
theorem C7_theorem (bbox : ℚ × ℚ × ℚ × ℚ) (H W p : ℚ)
    (hh : boxHeight bbox H W = 0) (hw : boxWidth bbox H W = 0) :
    targetSide bbox H W p = 0 ∧
    cropBox bbox H W p =
      ((max 0 (boxAbs bbox H W).1).floor,
       (max 0 (boxAbs bbox H W).2.1).floor,
       (max 0 (boxAbs bbox H W).1).floor,
       (max 0 (boxAbs bbox H W).2.1).floor) := by
  have ht : targetSide bbox H W p = 0 := by
    rw [targetSide, hh, hw]; simp
  have hy : (boxAbs bbox H W).2.2.1 = (boxAbs bbox H W).1 := by
    have := hh; rw [boxHeight] at this; linarith
  have hx : (boxAbs bbox H W).2.2.2 = (boxAbs bbox H W).2.1 := by
    have := hw; rw [boxWidth] at this; linarith
  refine ⟨ht, ?_⟩
  simp only [cropBox, computeCropReal, ht, hh, hw, hy, hx]
  norm_num

/-- C8: `add_classification_categories` is a no-op when the result object
already contains `classification_categories`: the existing vocabulary is
left exactly as it was and the classes file is not used. -/
theorem C8_theorem (r : DetectionResult) (cats : List (String × String))
    (classes_file : List String)
    (h : r.classification_categories = some cats) :
    add_classification_categories r classes_file = r := by
  simp only [add_classification_categories, h]

/-- Witness for C8 at a concrete result object. -/
theorem C8_witness :
    ({ classification_categories := some [("0", "cat")], images := [] } :
        DetectionResult).classification_categories = some [("0", "cat")] ∧
    add_classification_categories
        { classification_categories := some [("0", "cat")], images := [] }
        ["dog", "cat"] =
      { classification_categories := some [("0", "cat")], images := [] } :=
  ⟨rfl, C8_theorem _ [("0", "cat")] ["dog", "cat"] rfl⟩

/-- C2: for a detection of a successfully loaded image (and a classifier
call that returns), `classify_boxes` attaches classifications (sets the
`classifications` field to the top-scoring classes) iff the detection's
confidence is `≥ confidence_threshold`, its category is in the whitelist,
and its `classifications` field is absent or empty; otherwise the
detection is left completely unchanged (silently skipped). -/
theorem C2_theorem (model : Classifier) (thr : ℚ) (wl : List String)
    (pad : ℚ) (K : ℕ) (H W : ℚ) (file : String) (d : Detection)
    (preds : List ℚ)
    (hm : model file (cropBox d.bbox H W pad) = some preds) :
    (shouldClassify thr wl d = true ↔
      (thr ≤ d.conf ∧ d.category ∈ wl ∧
        (d.classifications = none ∨ d.classifications = some []))) ∧
    (shouldClassify thr wl d = true →
      processDetection model thr wl pad K H W file d =
        .ok { d with classifications := some (topClasses preds K) }) ∧
    (shouldClassify thr wl d = false →
      processDetection model thr wl pad K H W file d = .ok d) := by
  refine ⟨?_, ?_, ?_⟩
  · simp only [shouldClassify, notYetClassified, Bool.and_eq_true,
      decide_eq_true_eq]
    constructor
    · rintro ⟨⟨h1, h2⟩, h3⟩
      refine ⟨h1, by simpa using h2, ?_⟩
      cases hc : d.classifications with
      | none => exact Or.inl rfl
      | some l =>
        rw [hc] at h3
        right
        rcases l with _ | ⟨a, l⟩
        · rfl
        · simp at h3
    · rintro ⟨h1, h2, h3⟩
      refine ⟨⟨h1, by simpa using h2⟩, ?_⟩
      rcases h3 with h3 | h3 <;> simp [h3]
  · intro hg
    simp only [processDetection, hg, if_true, hm]
  · intro hg
    simp only [processDetection, hg, Bool.false_eq_true, if_false]

/-- Witness for C2 at a concrete detection and classifier. -/
theorem C2_witness :
    (fun _ _ => some [1/2, 3/4] : Classifier) "a.jpg"
        (cropBox demoDetection.bbox 100 100 (8/5)) = some [1/2, 3/4] ∧
    (shouldClassify (85/100) ["1"] demoDetection = true ↔
      ((85/100 : ℚ) ≤ demoDetection.conf ∧ demoDetection.category ∈ ["1"] ∧
        (demoDetection.classifications = none ∨
          demoDetection.classifications = some []))) ∧
    (shouldClassify (85/100) ["1"] demoDetection = true →
      processDetection (fun _ _ => some [1/2, 3/4]) (85/100) ["1"] (8/5) 3
          100 100 "a.jpg" demoDetection =
        .ok { demoDetection with
              classifications := some (topClasses [1/2, 3/4] 3) }) ∧
    (shouldClassify (85/100) ["1"] demoDetection = false →
      processDetection (fun _ _ => some [1/2, 3/4]) (85/100) ["1"] (8/5) 3
          100 100 "a.jpg" demoDetection = .ok demoDetection) :=
  ⟨rfl, C2_theorem (fun _ _ => some [1/2, 3/4]) (85/100) ["1"] (8/5) 3
    100 100 "a.jpg" demoDetection [1/2, 3/4] rfl⟩

/-- C9: a failed image load (`continue` in the `except` branch) leaves
every detection of that image unclassified and does not abort the batch:
in a 3-image batch where image 2 fails to load (and the classifier raises
no exception on images 1 and 3), image 2 is returned unchanged while
images 1 and 3 are processed normally. -/
theorem C9_theorem (loader : Loader) (model : Classifier) (thr : ℚ)
    (wl : List String) (pad : ℚ) (K : ℕ) (dir : String)
    (img1 img2 img3 : ImageRecord)
    (h2 : loader (joinPath dir img2.file) = none)
    (h1 : (processImage loader model thr wl pad K dir img1).2 = false)
    (h3 : (processImage loader model thr wl pad K dir img3).2 = false) :
    processImage loader model thr wl pad K dir img2 = (img2, false) ∧
    classifyImages loader model thr wl pad K dir [img1, img2, img3] =
      ([(processImage loader model thr wl pad K dir img1).1, img2,
        (processImage loader model thr wl pad K dir img3).1], false) := by
  have h2' : processImage loader model thr wl pad K dir img2 =
      (img2, false) := by
    simp only [processImage, h2]
  refine ⟨h2', ?_⟩
  simp only [classifyImages, h1, h2', h3, Bool.false_eq_true, if_false]

/-- Witness for C9: a concrete 3-image batch whose middle image fails to
load. -/
theorem C9_witness :
    (fun s => if s = "2.jpg" then none else some (100, 100) : Loader)
        (joinPath "" (⟨"2.jpg", []⟩ : ImageRecord).file) = none ∧
    (processImage (fun s => if s = "2.jpg" then none else some (100, 100))
        (fun _ _ => some [1]) (85/100) ["1"] (8/5) 3 "" ⟨"1.jpg", []⟩).2 =
      false ∧
    (processImage (fun s => if s = "2.jpg" then none else some (100, 100))
        (fun _ _ => some [1]) (85/100) ["1"] (8/5) 3 "" ⟨"3.jpg", []⟩).2 =
      false ∧
    (processImage (fun s => if s = "2.jpg" then none else some (100, 100))
          (fun _ _ => some [1]) (85/100) ["1"] (8/5) 3 "" ⟨"2.jpg", []⟩ =
        (⟨"2.jpg", []⟩, false) ∧
      classifyImages (fun s => if s = "2.jpg" then none else some (100, 100))
          (fun _ _ => some [1]) (85/100) ["1"] (8/5) 3 ""
          [⟨"1.jpg", []⟩, ⟨"2.jpg", []⟩, ⟨"3.jpg", []⟩] =
        ([(processImage
             (fun s => if s = "2.jpg" then none else some (100, 100))
             (fun _ _ => some [1]) (85/100) ["1"] (8/5) 3 ""
             ⟨"1.jpg", []⟩).1, ⟨"2.jpg", []⟩,
          (processImage
             (fun s => if s = "2.jpg" then none else some (100, 100))
             (fun _ _ => some [1]) (85/100) ["1"] (8/5) 3 ""
             ⟨"3.jpg", []⟩).1], false)) :=
  ⟨rfl, rfl, rfl,
    C9_theorem (fun s => if s = "2.jpg" then none else some (100, 100))
      (fun _ _ => some [1]) (85/100) ["1"] (8/5) 3 ""
      ⟨"1.jpg", []⟩ ⟨"2.jpg", []⟩ ⟨"3.jpg", []⟩ rfl rfl rfl⟩

/-- C10: an exception raised by the classifier invocation itself is not
caught inside `classify_boxes` (the `try`/`except` only wraps image
loading): when the gate selects a detection and the classifier raises, the
per-detection step escapes as an error, the failing detection keeps its
previous (unset) `classifications` — the field is assigned only after the
call returns — all remaining detections of the image stay unchanged, and
all remaining images of the batch stay unchanged. -/
theorem C10_theorem (loader : Loader) (model : Classifier) (thr : ℚ)
    (wl : List String) (pad : ℚ) (K : ℕ) (dir : String) (H W : ℚ)
    (file : String) (d : Detection) (ds : List Detection)
    (img : ImageRecord) (rest : List ImageRecord)
    (hgate : shouldClassify thr wl d = true)
    (hm : model file (cropBox d.bbox H W pad) = none)
    (himg : (processImage loader model thr wl pad K dir img).2 = true) :
    processDetection model thr wl pad K H W file d = .error () ∧
    processDetections model thr wl pad K H W file (d :: ds) =
      (d :: ds, true) ∧
    classifyImages loader model thr wl pad K dir (img :: rest) =
      ((processImage loader model thr wl pad K dir img).1 :: rest,
        true) := by
  have hd : processDetection model thr wl pad K H W file d = .error () := by
    simp only [processDetection, hgate, if_true, hm]
  refine ⟨hd, ?_, ?_⟩
  · simp only [processDetections, hd]
  · simp only [classifyImages, himg, if_true]

/-- Witness for C10: a concrete classifier that raises on every crop. -/
theorem C10_witness :
    shouldClassify 0 ["1"] ⟨"1", 1, (0, 0, 1, 1), none⟩ = true ∧
    (fun _ _ => none : Classifier) "1.jpg"
        (cropBox (0, 0, 1, 1) 100 100 (8/5)) = none ∧
    (processImage (fun _ => some (100, 100)) (fun _ _ => none) 0 ["1"]
        (8/5) 3 "" ⟨"1.jpg", [⟨"1", 1, (0, 0, 1, 1), none⟩]⟩).2 = true ∧
    (processDetection (fun _ _ => none) 0 ["1"] (8/5) 3 100 100 "1.jpg"
          ⟨"1", 1, (0, 0, 1, 1), none⟩ = .error () ∧
      processDetections (fun _ _ => none) 0 ["1"] (8/5) 3 100 100 "1.jpg"
          [⟨"1", 1, (0, 0, 1, 1), none⟩] =
        ([⟨"1", 1, (0, 0, 1, 1), none⟩], true) ∧
      classifyImages (fun _ => some (100, 100)) (fun _ _ => none) 0 ["1"]
          (8/5) 3 ""
          [⟨"1.jpg", [⟨"1", 1, (0, 0, 1, 1), none⟩]⟩, ⟨"2.jpg", []⟩] =
        ((processImage (fun _ => some (100, 100)) (fun _ _ => none) 0
            ["1"] (8/5) 3 "" ⟨"1.jpg", [⟨"1", 1, (0, 0, 1, 1), none⟩]⟩).1 ::
          [⟨"2.jpg", []⟩], true)) :=
  ⟨rfl, rfl, rfl,
    C10_theorem (fun _ => some (100, 100)) (fun _ _ => none) 0 ["1"] (8/5)
      3 "" 100 100 "1.jpg" ⟨"1", 1, (0, 0, 1, 1), none⟩ []
      ⟨"1.jpg", [⟨"1", 1, (0, 0, 1, 1), none⟩]⟩ [⟨"2.jpg", []⟩]
      rfl rfl rfl⟩

/-- Re-processing the output of the per-detection step is a no-op: either
the detection was skipped (and is skipped again), or it now carries a
non-empty classification list (and the already-classified gate skips it),
or it carries an empty one (and the deterministic classifier recomputes
the same value). -/
theorem processDetection_fix (model : Classifier) (thr : ℚ)
    (wl : List String) (pad : ℚ) (K : ℕ) (H W : ℚ) (file : String)
    (d d' : Detection)
    (h : processDetection model thr wl pad K H W file d = .ok d') :
    processDetection model thr wl pad K H W file d' = .ok d' := by
  by_cases hg : shouldClassify thr wl d = true
  · rw [processDetection, if_pos hg] at h
    cases hm : model file (cropBox d.bbox H W pad) with
    | none => rw [hm] at h; cases h
    | some preds =>
      rw [hm] at h
      have hd' : d' = { d with
          classifications := some (topClasses preds K) } := by
        cases h; rfl
      have hconf : d'.conf = d.conf := by rw [hd']
      have hcat : d'.category = d.category := by rw [hd']
      have hbb : d'.bbox = d.bbox := by rw [hd']
      cases hL : topClasses preds K with
      | nil =>
        have hg' : shouldClassify thr wl d' = true := by
          simp only [shouldClassify, Bool.and_eq_true] at hg ⊢
          refine ⟨⟨?_, ?_⟩, ?_⟩
          · rw [hconf]; exact hg.1.1
          · rw [hcat]; exact hg.1.2
          · simp [notYetClassified, hd', hL]
        rw [processDetection, if_pos hg', hbb, hm]
        simp [hd', hL]
      | cons a l =>
        have hg' : ¬ shouldClassify thr wl d' = true := by
          simp [shouldClassify, notYetClassified, hd', hL]
        rw [processDetection, if_neg hg']
  · rw [processDetection, if_neg hg] at h
    cases h
    rw [processDetection, if_neg hg]

/-- Re-processing the output of the detection loop is a no-op (when the
first pass did not abort). -/
theorem processDetections_fix (model : Classifier) (thr : ℚ)
    (wl : List String) (pad : ℚ) (K : ℕ) (H W : ℚ) (file : String) :
    ∀ (ds ds' : List Detection),
      processDetections model thr wl pad K H W file ds = (ds', false) →
      processDetections model thr wl pad K H W file ds' = (ds', false)
  | [], ds', h => by
    rw [processDetections] at h
    cases h
    rw [processDetections]
  | d :: rest, ds', h => by
    rw [processDetections] at h
    cases hd : processDetection model thr wl pad K H W file d with
    | error e => rw [hd] at h; simp at h
    | ok d' =>
      rw [hd] at h
      simp only [Prod.mk.injEq] at h
      obtain ⟨h1, h2⟩ := h
      have hrest : processDetections model thr wl pad K H W file rest =
          ((processDetections model thr wl pad K H W file rest).1,
            false) := by
        rw [← h2]
      subst h1
      rw [processDetections,
        processDetection_fix model thr wl pad K H W file d d' hd,
        processDetections_fix model thr wl pad K H W file rest _ hrest]

/-- Re-processing the output of the per-image step is a no-op (when the
first pass did not abort). -/
theorem processImage_fix (loader : Loader) (model : Classifier) (thr : ℚ)
    (wl : List String) (pad : ℚ) (K : ℕ) (dir : String)
    (img img' : ImageRecord)
    (h : processImage loader model thr wl pad K dir img = (img', false)) :
    processImage loader model thr wl pad K dir img' = (img', false) := by
  cases hl : loader (joinPath dir img.file) with
  | none =>
    rw [processImage, hl] at h
    cases h
    rw [processImage, hl]
  | some hw =>
    obtain ⟨hh, ww⟩ := hw
    simp only [processImage, hl, Prod.mk.injEq] at h
    obtain ⟨h1, h2⟩ := h
    subst h1
    simp only [processImage, hl]
    have hrest : processDetections model thr wl pad K (hh : ℚ) (ww : ℚ)
        (joinPath dir img.file) img.detections =
        ((processDetections model thr wl pad K (hh : ℚ) (ww : ℚ)
          (joinPath dir img.file) img.detections).1, false) := by
      rw [← h2]
    rw [processDetections_fix model thr wl pad K (hh : ℚ) (ww : ℚ)
      (joinPath dir img.file) _ _ hrest]

/-- Re-processing the output of the image loop is a no-op (when the first
pass did not abort). -/
theorem classifyImages_fix (loader : Loader) (model : Classifier)
    (thr : ℚ) (wl : List String) (pad : ℚ) (K : ℕ) (dir : String) :
    ∀ (imgs imgs' : List ImageRecord),
      classifyImages loader model thr wl pad K dir imgs = (imgs', false) →
      classifyImages loader model thr wl pad K dir imgs' = (imgs', false)
  | [], imgs', h => by
    rw [classifyImages] at h
    cases h
    rw [classifyImages]
  | img :: rest, imgs', h => by
    simp only [classifyImages] at h
    by_cases hf : (processImage loader model thr wl pad K dir img).2 = true
    · rw [if_pos hf] at h
      simp at h
    · rw [if_neg hf] at h
      simp only [Prod.mk.injEq] at h
      obtain ⟨h1, h2⟩ := h
      have himg : processImage loader model thr wl pad K dir img =
          ((processImage loader model thr wl pad K dir img).1, false) := by
        rw [Prod.ext_iff]
        exact ⟨rfl, by simpa using hf⟩
      have hrest : classifyImages loader model thr wl pad K dir rest =
          ((classifyImages loader model thr wl pad K dir rest).1,
            false) := by
        rw [← h2]
      subst h1
      simp only [classifyImages,
        processImage_fix loader model thr wl pad K dir img _ himg,
        Bool.false_eq_true, if_false,
        classifyImages_fix loader model thr wl pad K dir rest _ hrest]

/-- C3: running the classification step twice with the same model and the
same settings yields output identical to running it once (when the first
run did not abort on a classifier exception); in particular a detection
whose classification list is non-empty is left untouched by the second
run. -/
theorem C3_theorem (loader : Loader) (model : Classifier) (thr : ℚ)
    (wl : List String) (pad : ℚ) (K : ℕ) (dir : String)
    (imgs imgs' : List ImageRecord)
    (h : classifyImages loader model thr wl pad K dir imgs =
      (imgs', false)) :
    classifyImages loader model thr wl pad K dir imgs' = (imgs', false) ∧
    ∀ (H W : ℚ) (file : String) (d : Detection) (l : List (String × ℚ)),
      d.classifications = some l → l ≠ [] →
      processDetection model thr wl pad K H W file d = .ok d := by
  refine ⟨classifyImages_fix loader model thr wl pad K dir imgs imgs' h,
    ?_⟩
  intro H W file d l hl hne
  have hg : ¬ shouldClassify thr wl d = true := by
    simp only [shouldClassify, notYetClassified, hl, Bool.and_eq_true]
    rintro ⟨-, h0⟩
    rcases l with _ | ⟨a, l⟩
    · exact hne rfl
    · simp at h0
  rw [processDetection, if_neg hg]

/-- Witness for C3: a concrete one-image run that classifies a detection;
the second pass reproduces the first pass's output unchanged. -/
theorem C3_witness :
    classifyImages (fun _ => some (100, 100)) (fun _ _ => some [3, 7]) 0
        ["1"] 2 2 "" [⟨"a.jpg", [⟨"1", 1, (0, 0, 1, 1), none⟩]⟩] =
      ([⟨"a.jpg", [⟨"1", 1, (0, 0, 1, 1), some [("1", 7), ("0", 3)]⟩]⟩],
        false) ∧
    (classifyImages (fun _ => some (100, 100)) (fun _ _ => some [3, 7]) 0
        ["1"] 2 2 ""
        [⟨"a.jpg", [⟨"1", 1, (0, 0, 1, 1), some [("1", 7), ("0", 3)]⟩]⟩] =
      ([⟨"a.jpg", [⟨"1", 1, (0, 0, 1, 1), some [("1", 7), ("0", 3)]⟩]⟩],
        false) ∧
      ∀ (H W : ℚ) (file : String) (d : Detection)
        (l : List (String × ℚ)),
        d.classifications = some l → l ≠ [] →
        processDetection (fun _ _ => some [3, 7]) 0 ["1"] 2 2 H W file d =
          .ok d) := by
  have h : classifyImages (fun _ => some (100, 100))
      (fun _ _ => some [3, 7]) 0 ["1"] 2 2 ""
      [⟨"a.jpg", [⟨"1", 1, (0, 0, 1, 1), none⟩]⟩] =
      ([⟨"a.jpg", [⟨"1", 1, (0, 0, 1, 1), some [("1", 7), ("0", 3)]⟩]⟩],
        false) := by
    norm_num [classifyImages, processImage, processDetections,
      processDetection, shouldClassify, notYetClassified, joinPath,
      cropBox, computeCropReal, boxAbs, boxHeight, boxWidth, targetSide,
      max_def, ratFloor_eq_floor, topClasses, argsortDesc, rankDesc,
      insertRanked]
    exact ⟨rfl, rfl⟩
  exact ⟨h, C3_theorem (fun _ => some (100, 100)) (fun _ _ => some [3, 7])
    0 ["1"] 2 2 "" _ _ h⟩

/-- C6: the claim as stated is false: because the crop coordinates are
truncated to integers (`astype(int)`), the integer crop can cut off a
sub-pixel upper sliver of the original box, and can be strictly smaller
than the box: for a 100×100 image, bbox
`(x, y, w, h) = (0.1, 0.1, 0.005, 0.005)` (pixel box `[10, 10.5]` on both
axes) and `padding_factor = 1`, the crop degenerates to `(10, 10, 10, 10)`
with extent 0, smaller than the box's pixel height 0.5. -/
theorem C6_counterexample :
    cropBox (1/10, 1/10, 1/200, 1/200) 100 100 1 = (10, 10, 10, 10) ∧
    boxHeight (1/10, 1/10, 1/200, 1/200) 100 100 = 1/2 ∧
    (((cropBox (1/10, 1/10, 1/200, 1/200) 100 100 1).2.2.1 -
        (cropBox (1/10, 1/10, 1/200, 1/200) 100 100 1).1 : ℤ) : ℚ) <
      boxHeight (1/10, 1/10, 1/200, 1/200) 100 100 := by
  have h1 : cropBox (1/10, 1/10, 1/200, 1/200) 100 100 1 =
      (10, 10, 10, 10) := by
    norm_num [cropBox, computeCropReal, boxAbs, boxHeight, boxWidth,
      targetSide, max_def, ratFloor_eq_floor]
  have h2 : boxHeight (1/10, 1/10, 1/200, 1/200) 100 100 = 1/2 := by
    norm_num [boxHeight, boxAbs]
  refine ⟨h1, h2, ?_⟩
  rw [h1, h2]
  norm_num

/-- C6 (amended): for `padding_factor ≥ 1` and a box with nonnegative
width and height (on a nonnegatively-sized image), the real-valued crop
before integer truncation fully contains the original box, and the
integer crop contains the original box intersected with the lower image
bounds up to strictly less than one pixel at each upper edge: its lower
coordinates are `≤` the clamped box's lower coordinates, and its upper
coordinates are `>` the clamped box's upper coordinates minus 1 (the floor
can cut a sub-pixel sliver, so the crop can be up to one pixel smaller
than the box in a dimension, but no more). -/
theorem C6_theorem (bbox : ℚ × ℚ × ℚ × ℚ) (H W p : ℚ) (hp : 1 ≤ p)
    (hw : 0 ≤ bbox.2.2.1) (hh : 0 ≤ bbox.2.2.2) (hH : 0 ≤ H)
    (hW : 0 ≤ W) :
    ((computeCropReal bbox H W p).1 ≤ (boxAbs bbox H W).1 ∧
      (computeCropReal bbox H W p).2.1 ≤ (boxAbs bbox H W).2.1 ∧
      (boxAbs bbox H W).2.2.1 ≤ (computeCropReal bbox H W p).2.2.1 ∧
      (boxAbs bbox H W).2.2.2 ≤ (computeCropReal bbox H W p).2.2.2) ∧
    (((cropBox bbox H W p).1 : ℚ) ≤ max 0 (boxAbs bbox H W).1 ∧
      ((cropBox bbox H W p).2.1 : ℚ) ≤ max 0 (boxAbs bbox H W).2.1 ∧
      max 0 (boxAbs bbox H W).2.2.1 - 1 < ((cropBox bbox H W p).2.2.1 : ℚ) ∧
      max 0 (boxAbs bbox H W).2.2.2 - 1 <
        ((cropBox bbox H W p).2.2.2 : ℚ)) := by
  have hbh : boxHeight bbox H W = bbox.2.2.2 * H := by
    simp only [boxHeight, boxAbs]; ring
  have hbw : boxWidth bbox H W = bbox.2.2.1 * W := by
    simp only [boxWidth, boxAbs]; ring
  have hbh0 : 0 ≤ boxHeight bbox H W := hbh ▸ mul_nonneg hh hH
  have hbw0 : 0 ≤ boxWidth bbox H W := hbw ▸ mul_nonneg hw hW
  have hmax0 : 0 ≤ max (boxHeight bbox H W) (boxWidth bbox H W) :=
    le_trans hbh0 (le_max_left _ _)
  have hts : max (boxHeight bbox H W) (boxWidth bbox H W) ≤
      targetSide bbox H W p := by
    simpa [targetSide] using le_mul_of_one_le_left hmax0 hp
  have hoy : 0 ≤ (targetSide bbox H W p - boxHeight bbox H W) / 2 := by
    have := le_trans (le_max_left (boxHeight bbox H W)
      (boxWidth bbox H W)) hts
    linarith
  have hox : 0 ≤ (targetSide bbox H W p - boxWidth bbox H W) / 2 := by
    have := le_trans (le_max_right (boxHeight bbox H W)
      (boxWidth bbox H W)) hts
    linarith
  have hreal : (computeCropReal bbox H W p).1 ≤ (boxAbs bbox H W).1 ∧
      (computeCropReal bbox H W p).2.1 ≤ (boxAbs bbox H W).2.1 ∧
      (boxAbs bbox H W).2.2.1 ≤ (computeCropReal bbox H W p).2.2.1 ∧
      (boxAbs bbox H W).2.2.2 ≤ (computeCropReal bbox H W p).2.2.2 := by
    simp only [computeCropReal]
    refine ⟨by linarith, by linarith, by linarith, by linarith⟩
  refine ⟨hreal, ?_, ?_, ?_, ?_⟩
  · simp only [cropBox]
    rw [ratFloor_eq_floor]
    exact le_trans (Int.floor_le _) (max_le_max le_rfl hreal.1)
  · simp only [cropBox]
    rw [ratFloor_eq_floor]
    exact le_trans (Int.floor_le _) (max_le_max le_rfl hreal.2.1)
  · simp only [cropBox]
    rw [ratFloor_eq_floor]
    calc max 0 (boxAbs bbox H W).2.2.1 - 1
        ≤ max 0 (computeCropReal bbox H W p).2.2.1 - 1 := by
          have := max_le_max (le_refl (0:ℚ)) hreal.2.2.1
          linarith
      _ < _ := Int.sub_one_lt_floor _
  · simp only [cropBox]
    rw [ratFloor_eq_floor]
    calc max 0 (boxAbs bbox H W).2.2.2 - 1
        ≤ max 0 (computeCropReal bbox H W p).2.2.2 - 1 := by
          have := max_le_max (le_refl (0:ℚ)) hreal.2.2.2
          linarith
      _ < _ := Int.sub_one_lt_floor _

/-- Witness for C6 at the concrete box of the spec's scenario. -/
theorem C6_witness :
    ((1:ℚ) ≤ 8/5 ∧ (0:ℚ) ≤ (1/4 : ℚ) ∧ (0:ℚ) ≤ (3/10 : ℚ) ∧
      (0:ℚ) ≤ (300:ℚ) ∧ (0:ℚ) ≤ (400:ℚ)) ∧
    (((computeCropReal (1/4, 1/5, 1/4, 3/10) 300 400 (8/5)).1 ≤
        (boxAbs (1/4, 1/5, 1/4, 3/10) 300 400).1 ∧
      (computeCropReal (1/4, 1/5, 1/4, 3/10) 300 400 (8/5)).2.1 ≤
        (boxAbs (1/4, 1/5, 1/4, 3/10) 300 400).2.1 ∧
      (boxAbs (1/4, 1/5, 1/4, 3/10) 300 400).2.2.1 ≤
        (computeCropReal (1/4, 1/5, 1/4, 3/10) 300 400 (8/5)).2.2.1 ∧
      (boxAbs (1/4, 1/5, 1/4, 3/10) 300 400).2.2.2 ≤
        (computeCropReal (1/4, 1/5, 1/4, 3/10) 300 400 (8/5)).2.2.2) ∧
    (((cropBox (1/4, 1/5, 1/4, 3/10) 300 400 (8/5)).1 : ℚ) ≤
        max 0 (boxAbs (1/4, 1/5, 1/4, 3/10) 300 400).1 ∧
      ((cropBox (1/4, 1/5, 1/4, 3/10) 300 400 (8/5)).2.1 : ℚ) ≤
        max 0 (boxAbs (1/4, 1/5, 1/4, 3/10) 300 400).2.1 ∧
      max 0 (boxAbs (1/4, 1/5, 1/4, 3/10) 300 400).2.2.1 - 1 <
        ((cropBox (1/4, 1/5, 1/4, 3/10) 300 400 (8/5)).2.2.1 : ℚ) ∧
      max 0 (boxAbs (1/4, 1/5, 1/4, 3/10) 300 400).2.2.2 - 1 <
        ((cropBox (1/4, 1/5, 1/4, 3/10) 300 400 (8/5)).2.2.2 : ℚ))) :=
  ⟨⟨by norm_num, by norm_num, by norm_num, by norm_num, by norm_num⟩,
    C6_theorem (1/4, 1/5, 1/4, 3/10) 300 400 (8/5) (by norm_num)
      (by norm_num) (by norm_num) (by norm_num) (by norm_num)⟩

/-- Witness for C7 at a concrete degenerate (point) box. -/
theorem C7_witness :
    (boxHeight (1/2, 1/3, 0, 0) 100 200 = 0 ∧
      boxWidth (1/2, 1/3, 0, 0) 100 200 = 0) ∧
    (targetSide (1/2, 1/3, 0, 0) 100 200 (8/5) = 0 ∧
      cropBox (1/2, 1/3, 0, 0) 100 200 (8/5) =
        ((max 0 (boxAbs (1/2, 1/3, 0, 0) 100 200).1).floor,
         (max 0 (boxAbs (1/2, 1/3, 0, 0) 100 200).2.1).floor,
         (max 0 (boxAbs (1/2, 1/3, 0, 0) 100 200).1).floor,
         (max 0 (boxAbs (1/2, 1/3, 0, 0) 100 200).2.1).floor)) :=
  ⟨⟨by norm_num [boxHeight, boxAbs], by norm_num [boxWidth, boxAbs]⟩,
    C7_theorem (1/2, 1/3, 0, 0) 100 200 (8/5)
      (by norm_num [boxHeight, boxAbs]) (by norm_num [boxWidth, boxAbs])⟩

/-! Properties of the ranking used by the top-K selection. -/

/-- The (reflexive) ranking order: `p` ranks no later than `q` iff `p`'s
score is higher, or the scores are equal and `p`'s index is no larger. -/
def rankRel (p q : ℕ × ℚ) : Prop :=
  q.2 < p.2 ∨ (p.2 = q.2 ∧ p.1 ≤ q.1)

theorem rankRel_trans {p q r : ℕ × ℚ} (h1 : rankRel p q)
    (h2 : rankRel q r) : rankRel p r := by
  rcases h1 with h1 | ⟨h1, h1'⟩ <;> rcases h2 with h2 | ⟨h2, h2'⟩
  · exact Or.inl (lt_trans h2 h1)
  · exact Or.inl (h2 ▸ h1)
  · exact Or.inl (h1 ▸ h2)
  · exact Or.inr ⟨h1.trans h2, h1'.trans h2'⟩

theorem rankRel_of_not_before {p q : ℕ × ℚ}
    (h : ¬ (q.2 < p.2 ∨ (p.2 = q.2 ∧ p.1 < q.1))) : rankRel q p := by
  push_neg at h
  obtain ⟨h1, h2⟩ := h
  rcases lt_or_eq_of_le h1 with h3 | h3
  · exact Or.inl h3
  · exact Or.inr ⟨h3.symm, h2 h3⟩

theorem mem_insertRanked {a p : ℕ × ℚ} :
    ∀ {l : List (ℕ × ℚ)}, a ∈ insertRanked p l ↔ a = p ∨ a ∈ l
  | [] => by simp [insertRanked]
  | q :: rest => by
    rw [insertRanked]
    split
    · simp
    · rw [List.mem_cons, List.mem_cons, mem_insertRanked]
      tauto

theorem perm_insertRanked (p : ℕ × ℚ) :
    ∀ (l : List (ℕ × ℚ)), (insertRanked p l).Perm (p :: l)
  | [] => by rw [insertRanked]
  | q :: rest => by
    rw [insertRanked]
    split
    · exact List.Perm.refl _
    · exact ((perm_insertRanked p rest).cons q).trans
        (List.Perm.swap p q rest)

theorem pairwise_insertRanked {p : ℕ × ℚ} :
    ∀ {l : List (ℕ × ℚ)}, l.Pairwise rankRel →
      (insertRanked p l).Pairwise rankRel
  | [], _ => by simp [insertRanked]
  | q :: rest, h => by
    rw [List.pairwise_cons] at h
    obtain ⟨hq, hrest⟩ := h
    rw [insertRanked]
    split
    · next hc =>
      have hpq : rankRel p q := by
        rcases hc with hc | ⟨hc, hc'⟩
        · exact Or.inl hc
        · exact Or.inr ⟨hc, le_of_lt hc'⟩
      refine List.pairwise_cons.mpr ⟨?_, List.pairwise_cons.mpr
        ⟨hq, hrest⟩⟩
      intro x hx
      rcases List.mem_cons.mp hx with rfl | hx
      · exact hpq
      · exact rankRel_trans hpq (hq x hx)
    · next hc =>
      refine List.pairwise_cons.mpr ⟨?_, pairwise_insertRanked hrest⟩
      intro x hx
      rcases mem_insertRanked.mp hx with rfl | hx
      · exact rankRel_of_not_before hc
      · exact hq x hx

theorem pairwise_rankDesc :
    ∀ (l : List (ℕ × ℚ)), (rankDesc l).Pairwise rankRel
  | [] => by rw [rankDesc]; exact List.Pairwise.nil
  | p :: rest => by
    rw [rankDesc]
    exact pairwise_insertRanked (pairwise_rankDesc rest)

theorem perm_rankDesc : ∀ (l : List (ℕ × ℚ)), (rankDesc l).Perm l
  | [] => by rw [rankDesc]
  | p :: rest => by
    rw [rankDesc]
    exact (perm_insertRanked p (rankDesc rest)).trans
      ((perm_rankDesc rest).cons p)

/-- `argsortDesc` is a permutation of `0, …, n-1`. -/
theorem argsortDesc_perm_range (predictions : List ℚ) :
    (argsortDesc predictions).Perm (List.range predictions.length) := by
  rw [argsortDesc]
  have h := (perm_rankDesc ((List.range predictions.length).map
    (fun i => (i, predictions.getD i 0)))).map Prod.fst
  rw [List.map_map] at h
  have h2 : List.map (Prod.fst ∘ fun i => (i, predictions.getD i 0))
      (List.range predictions.length) = List.range predictions.length := by
    simp [Function.comp_def]
  rw [h2] at h
  exact h

theorem argsortDesc_length (predictions : List ℚ) :
    (argsortDesc predictions).length = predictions.length := by
  rw [(argsortDesc_perm_range predictions).length_eq, List.length_range]

theorem argsortDesc_nodup (predictions : List ℚ) :
    (argsortDesc predictions).Nodup :=
  (argsortDesc_perm_range predictions).nodup_iff.mpr
    (List.nodup_range _)

theorem mem_argsortDesc {i : ℕ} {predictions : List ℚ} :
    i ∈ argsortDesc predictions ↔ i < predictions.length := by
  rw [(argsortDesc_perm_range predictions).mem_iff, List.mem_range]

/-- The indices produced by `argsortDesc` are ordered by strictly
descending score, ties by strictly ascending index. -/
theorem argsortDesc_pairwise (predictions : List ℚ) :
    (argsortDesc predictions).Pairwise
      (fun i j => predictions.getD j 0 < predictions.getD i 0 ∨
        (predictions.getD i 0 = predictions.getD j 0 ∧ i < j)) := by
  have hbase : ∀ p ∈ rankDesc ((List.range predictions.length).map
      (fun i => (i, predictions.getD i 0))),
      p.2 = predictions.getD p.1 0 := by
    intro p hp
    have := (perm_rankDesc _).mem_iff.mp hp
    obtain ⟨i, _, rfl⟩ := List.mem_map.mp this
    rfl
  have hpw : (argsortDesc predictions).Pairwise
      (fun i j => predictions.getD j 0 < predictions.getD i 0 ∨
        (predictions.getD i 0 = predictions.getD j 0 ∧ i ≤ j)) := by
    rw [argsortDesc, List.pairwise_map]
    refine (pairwise_rankDesc _).imp_of_mem ?_
    intro a b ha hb hr
    rw [rankRel, hbase a ha, hbase b hb] at hr
    exact hr
  have hne : (argsortDesc predictions).Pairwise Ne :=
    argsortDesc_nodup predictions
  refine (hpw.and hne).imp ?_
  rintro a b ⟨h1 | ⟨h1, h2⟩, hne'⟩
  · exact Or.inl h1
  · exact Or.inr ⟨h1, lt_of_le_of_ne h2 hne'⟩

/-- C4: the merged classification list has length
`min(num_annotated_classes, number of classifier outputs)`, is ordered by
non-increasing score with ties broken by ascending class index (stable
selection; tie order modelled from the spec, `np.argsort`'s tie order
being library-internal), each entry is the class's 0-based index as a
string paired with the model's raw score for that class, and (provided
the vocabulary covers every output index) every class id is a valid
string index into the vocabulary. -/
theorem C4_theorem (predictions : List ℚ) (K : ℕ)
    (vocab : List (String × String))
    (hvocab : ∀ i : ℕ, i < predictions.length →
      toString i ∈ vocab.map Prod.fst) :
    (topClasses predictions K).length = min K predictions.length ∧
    (topClasses predictions K).Pairwise
      (fun p q => q.2 < p.2 ∨ p.2 = q.2) ∧
    ((argsortDesc predictions).take K).Pairwise
      (fun i j => predictions.getD j 0 < predictions.getD i 0 ∨
        (predictions.getD i 0 = predictions.getD j 0 ∧ i < j)) ∧
    ∀ p ∈ topClasses predictions K, ∃ i : ℕ, i < predictions.length ∧
      p = (toString i, predictions.getD i 0) ∧
      p.1 ∈ vocab.map Prod.fst := by
  have htake : ((argsortDesc predictions).take K).Pairwise
      (fun i j => predictions.getD j 0 < predictions.getD i 0 ∨
        (predictions.getD i 0 = predictions.getD j 0 ∧ i < j)) :=
    (argsortDesc_pairwise predictions).sublist
      (List.take_sublist K (argsortDesc predictions))
  refine ⟨?_, ?_, htake, ?_⟩
  · simp [topClasses, List.length_take, argsortDesc_length]
  · rw [topClasses, List.pairwise_map]
    refine htake.imp ?_
    rintro a b (h | ⟨h, -⟩)
    · exact Or.inl h
    · exact Or.inr h
  · intro p hp
    rw [topClasses] at hp
    obtain ⟨i, hi, rfl⟩ := List.mem_map.mp hp
    have hmem : i < predictions.length :=
      mem_argsortDesc.mp (List.take_subset K (argsortDesc predictions) hi)
    exact ⟨i, hmem, rfl, hvocab i hmem⟩

/-- Witness for C4 at the scores of the spec's concrete scenario. -/
theorem C4_witness :
    (∀ i : ℕ, i < ([1/10, 7/10, 1/5] : List ℚ).length →
      toString i ∈ ([("0", "a"), ("1", "b"), ("2", "c")] :
        List (String × String)).map Prod.fst) ∧
    ((topClasses [1/10, 7/10, 1/5] 2).length =
      min 2 ([1/10, 7/10, 1/5] : List ℚ).length ∧
    (topClasses [1/10, 7/10, 1/5] 2).Pairwise
      (fun p q => q.2 < p.2 ∨ p.2 = q.2) ∧
    ((argsortDesc [1/10, 7/10, 1/5]).take 2).Pairwise
      (fun i j => ([1/10, 7/10, 1/5] : List ℚ).getD j 0 <
          ([1/10, 7/10, 1/5] : List ℚ).getD i 0 ∨
        (([1/10, 7/10, 1/5] : List ℚ).getD i 0 =
          ([1/10, 7/10, 1/5] : List ℚ).getD j 0 ∧ i < j)) ∧
    ∀ p ∈ topClasses [1/10, 7/10, 1/5] 2, ∃ i : ℕ,
      i < ([1/10, 7/10, 1/5] : List ℚ).length ∧
      p = (toString i, ([1/10, 7/10, 1/5] : List ℚ).getD i 0) ∧
      p.1 ∈ ([("0", "a"), ("1", "b"), ("2", "c")] :
        List (String × String)).map Prod.fst) := by
  have hv : ∀ i : ℕ, i < ([1/10, 7/10, 1/5] : List ℚ).length →
      toString i ∈ ([("0", "a"), ("1", "b"), ("2", "c")] :
        List (String × String)).map Prod.fst := by
    intro i hi
    have h3 : i < 3 := by simpa using hi
    interval_cases i <;> simp <;> decide
  exact ⟨hv, C4_theorem [1/10, 7/10, 1/5] 2
    [("0", "a"), ("1", "b"), ("2", "c")] hv⟩

end ApplyClassifier
